import Mathlib

/-!
Shallow embedding of the `supers` process supervisor (src/src/programs.rs,
src/src/handlers.rs, src/src/state.rs, src/src/messages.rs, src/src/errors.rs).

The supervisor worker for one program is the function `run_state_machine`
(programs.rs, lines 223-325), driven in a loop by `pgm_thread`
(lines 363-385).  A second, pure path computes an action list with
`state_machine_step` (lines 80-142) and executes it with
`run_actions`/`run_action` (lines 144-211).

OS interaction (spawn / try_wait / kill) and mailbox sends are modelled by an
environment `StepEnv` fixing the outcome of each call; the side effects of a
step are recorded as an ordered `List Event`.  A Rust `unreachable!` panic is
the `Outcome.panicked` constructor, distinct from `Result::Err`.
-/

namespace Supers

/-- `RestartPolicy` from src/src/main.rs / config.rs: Always, Never, OnError. -/
inductive RestartPolicy
  | Always
  | Never
  | OnError
deriving DecidableEq, Repr

/-- `ProgramStatus` from src/src/state.rs: Running or Stopped. -/
inductive ProgramStatus
  | Running
  | Stopped
deriving DecidableEq, Repr

/-- `CommandMsg` from src/src/messages.rs: Start, Stop, Restart. -/
inductive CommandMsg
  | Start
  | Stop
  | Restart
deriving DecidableEq, Repr

/-- `std::process::ExitStatus`, abstracted to what the code consumes:
the result of `success()`. -/
structure ExitStatus where
  success : Bool
deriving DecidableEq, Repr

/-- An OS child handle (`std::process::Child`), abstracted to an identity. -/
structure Child where
  id : Nat
deriving DecidableEq, Repr

/-- `type SupersChild = Option<Child>` from programs.rs line 19. -/
abbrev SupersChild := Option Child

/-- `ChildStatus` from programs.rs lines 327-332. -/
inductive ChildStatus
  | NoChild
  | Alive
  | Exited (code : ExitStatus)
deriving DecidableEq, Repr

/-- `Action` from programs.rs lines 50-56. -/
inductive Action
  | ResetChild
  | SpawnChild
  | KillChild
  | ApplyPolicy (code : ExitStatus)
  | UpdateStatus (status : ProgramStatus)
deriving DecidableEq, Repr

/-- The variants of `SupersError` (src/src/errors.rs) reachable from the
supervisor step, each carrying the program name where the Rust code tags one. -/
inductive SupersError
  | ProgramCheckProcessStatusError (name : String)
  | ProgramProcessSpawnError (name : String)
  | ProgramProcessKillError (name : String)
  | ProgramCommandChannelSendError
deriving DecidableEq, Repr

/-- `ProgramConfig` from src/src/main.rs (the fields used by programs.rs). -/
structure ProgramConfig where
  name : String
  cmd : String
  args : List String
  env : List (String × String)
  restartpolicy : RestartPolicy
deriving DecidableEq, Repr

/-- Outcome of one Rust call or step: `Ok`, `Err`, or a `panic!`/`unreachable!`. -/
inductive Outcome (α : Type)
  | ok (a : α)
  | err (e : SupersError)
  | panicked
deriving DecidableEq, Repr

/-- Result of `Child::try_wait` on a present child:
`Err(_)`, `Ok(None)` (still running), or `Ok(Some(status))`. -/
inductive PollOutcome
  | pollErr
  | alive
  | exited (code : ExitStatus)
deriving DecidableEq, Repr

/-- Environment fixing the outcome of each OS / channel call inside one step:
what `try_wait` would report, what `spawn` returns (`none` = `SpawnError`),
whether `kill` succeeds, and whether `Sender::send` succeeds. -/
structure StepEnv where
  poll : PollOutcome
  spawnResult : Option Child
  killOk : Bool
  sendOk : Bool
deriving DecidableEq, Repr

/-- One recorded side effect of a step: a registry write via
`update_pgm_status`, a successful spawn, a kill of a child, or a message
enqueued on the supervisor's own mailbox. -/
inductive Event
  | wrote (s : ProgramStatus)
  | spawned (c : Child)
  | killed (id : Nat)
  | sentMsg (m : CommandMsg)
deriving DecidableEq, Repr

/-- `get_child_status` from programs.rs lines 340-357: `NoChild` when the
handle is absent, otherwise classify the `try_wait` result, mapping an OS
error to `ProgramCheckProcessStatusError` tagged with the program name. -/
def get_child_status (name : String) (child : SupersChild)
    (poll : PollOutcome) : Except SupersError ChildStatus :=
  match child with
  | none => .ok .NoChild
  | some _ =>
    match poll with
    | .pollErr => .error (.ProgramCheckProcessStatusError name)
    | .alive => .ok .Alive
    | .exited code => .ok (.Exited code)

/-- `state_machine_step` from programs.rs lines 80-142: the pure action list
for one `(ChildStatus, Option CommandMsg)` pair. -/
def state_machine_step (status : ChildStatus) (msg : Option CommandMsg) :
    List Action :=
  match status, msg with
  | .NoChild, none => []
  | .NoChild, some .Start =>
      [.SpawnChild, .UpdateStatus .Running]
  | .NoChild, some .Restart => []
  | .NoChild, some .Stop => []
  | .Alive, none => []
  | .Alive, some .Start => []
  | .Alive, some .Stop =>
      [.KillChild, .UpdateStatus .Stopped, .ResetChild]
  | .Alive, some .Restart =>
      [.KillChild, .SpawnChild]
  | .Exited code, none => [.ApplyPolicy code]
  | .Exited _, some .Stop => []
  | .Exited _, some .Start =>
      [.SpawnChild, .UpdateStatus .Running]
  | .Exited _, some .Restart =>
      [.SpawnChild, .UpdateStatus .Running]

/-- `run_action` from programs.rs lines 157-211: execute one `Action`,
returning the new child handle and the events it produced.  `KillChild` on an
absent handle is the `unreachable!` panic; the handle is not cleared by a
kill.  `ApplyPolicy` matches `program_config.restartpolicy`. -/
def run_action (action : Action) (child : SupersChild) (p : ProgramConfig)
    (env : StepEnv) : Outcome SupersChild × List Event :=
  match action with
  | .ResetChild => (.ok none, [])
  | .SpawnChild =>
    match env.spawnResult with
    | some c => (.ok (some c), [.spawned c])
    | none => (.err (.ProgramProcessSpawnError p.name), [])
  | .KillChild =>
    match child with
    | some c =>
      if env.killOk then (.ok (some c), [.killed c.id])
      else (.err (.ProgramProcessKillError p.name), [])
    | none => (.panicked, [])
  | .ApplyPolicy code =>
    match p.restartpolicy with
    | .Always =>
      if env.sendOk then (.ok child, [.sentMsg .Start])
      else (.err .ProgramCommandChannelSendError, [])
    | .Never => (.ok child, [])
    | .OnError =>
      if code.success then (.ok child, [])
      else if env.sendOk then (.ok child, [.sentMsg .Start])
      else (.err .ProgramCommandChannelSendError, [])
  | .UpdateStatus s => (.ok child, [.wrote s])

/-- `run_actions` from programs.rs lines 144-155: run the actions in order,
stopping at the first `Err` (the Rust `?`) and accumulating events. -/
def run_actions (actions : List Action) (child : SupersChild)
    (p : ProgramConfig) (env : StepEnv) : Outcome SupersChild × List Event :=
  match actions with
  | [] => (.ok child, [])
  | a :: rest =>
    match run_action a child p env with
    | (.ok child2, evs) =>
      let r := run_actions rest child2 p env
      (r.1, evs ++ r.2)
    | (.err e, evs) => (.err e, evs)
    | (.panicked, evs) => (.panicked, evs)

/-- `run_state_machine` from programs.rs lines 223-325: the fused production
step used by `pgm_thread`.  It derives the status with `get_child_status` and
then executes the transition directly:
* `(NoChild, Start)`: write `Running`, then spawn (line 240-244);
* `(Alive, Stop)`: kill, write `Stopped`, clear the handle (260-273), the
  absent-handle branch being `unreachable!`;
* `(Alive, Restart)`: send `Stop` then `Start` on the own mailbox, keep the
  child (274-282);
* `(Exited code, none)`: write `Stopped`, then apply the restart policy by
  sending `Start` when it asks for a restart, keeping the child (283-309);
* `(Exited _, Stop)`: ignore the command (310-313);
* `(Exited _, Start | Restart)`: send `Start`, clear the handle (314-323);
* every other pair: no-op returning the child unchanged. -/
def run_state_machine (child : SupersChild) (msg : Option CommandMsg)
    (p : ProgramConfig) (env : StepEnv) : Outcome SupersChild × List Event :=
  match get_child_status p.name child env.poll with
  | .error e => (.err e, [])
  | .ok status =>
    match status, msg with
    | .NoChild, none => (.ok child, [])
    | .NoChild, some .Start =>
      match env.spawnResult with
      | some c => (.ok (some c), [.wrote .Running, .spawned c])
      | none =>
        (.err (.ProgramProcessSpawnError p.name), [.wrote .Running])
    | .NoChild, some .Stop => (.ok child, [])
    | .NoChild, some .Restart => (.ok child, [])
    | .Alive, none => (.ok child, [])
    | .Alive, some .Start => (.ok child, [])
    | .Alive, some .Stop =>
      match child with
      | some c =>
        if env.killOk then (.ok none, [.killed c.id, .wrote .Stopped])
        else (.err (.ProgramProcessKillError p.name), [])
      | none => (.panicked, [])
    | .Alive, some .Restart =>
      if env.sendOk then (.ok child, [.sentMsg .Stop, .sentMsg .Start])
      else (.err .ProgramCommandChannelSendError, [])
    | .Exited code, none =>
      match p.restartpolicy with
      | .Always =>
        if env.sendOk then (.ok child, [.wrote .Stopped, .sentMsg .Start])
        else (.err .ProgramCommandChannelSendError, [.wrote .Stopped])
      | .Never => (.ok child, [.wrote .Stopped])
      | .OnError =>
        if code.success then (.ok child, [.wrote .Stopped])
        else if env.sendOk then
          (.ok child, [.wrote .Stopped, .sentMsg .Start])
        else (.err .ProgramCommandChannelSendError, [.wrote .Stopped])
    | .Exited _, some .Stop => (.ok child, [])
    | .Exited _, some .Start =>
      if env.sendOk then (.ok none, [.sentMsg .Start])
      else (.err .ProgramCommandChannelSendError, [])
    | .Exited _, some .Restart =>
      if env.sendOk then (.ok none, [.sentMsg .Start])
      else (.err .ProgramCommandChannelSendError, [])

/-- `pgm_thread` from programs.rs lines 363-385, run over a finite prefix of
its infinite loop: each element of `steps` is the command (if any) received
within the timeout together with that iteration's OS environment.  A step
returning `Err` terminates the whole worker with that error via `?`; the
remaining iterations never run. -/
def pgm_thread_run (steps : List (Option CommandMsg × StepEnv))
    (child : SupersChild) (p : ProgramConfig) : Outcome Unit × List Event :=
  match steps with
  | [] => (.ok (), [])
  | (msg, env) :: rest =>
    match run_state_machine child msg p env with
    | (.ok child2, evs) =>
      let r := pgm_thread_run rest child2 p
      (r.1, evs ++ r.2)
    | (.err e, evs) => (.err e, evs)
    | (.panicked, evs) => (.panicked, evs)

/-- Registry writes contained in an event trace, in order. -/
def writes_of (evs : List Event) : List ProgramStatus :=
  evs.filterMap fun e =>
    match e with
    | .wrote s => some s
    | _ => none

/-- Messages enqueued on the own mailbox by an event trace, in order. -/
def sends_of (evs : List Event) : List CommandMsg :=
  evs.filterMap fun e =>
    match e with
    | .sentMsg m => some m
    | _ => none

/-- Ids of children killed by an event trace, in order. -/
def kills_of (evs : List Event) : List Nat :=
  evs.filterMap fun e =>
    match e with
    | .killed i => some i
    | _ => none

/-- Children successfully spawned by an event trace, in order. -/
def spawns_of (evs : List Event) : List Child :=
  evs.filterMap fun e =>
    match e with
    | .spawned c => some c
    | _ => none

/-- Final registry entry for the program after folding the trace's writes
over an initial entry (models repeated `update_pgm_status`, state.rs /
programs.rs lines 39-48: insert-or-overwrite). -/
def apply_writes (init : Option ProgramStatus) (evs : List Event) :
    Option ProgramStatus :=
  (writes_of evs).foldl (fun _ s => some s) init

/-- A mailbox sender as the HTTP layer sees it: whether `send` succeeds
(`crossbeam` sends fail only when the receiver is gone). -/
structure ChannelSender where
  sendOk : Bool
deriving DecidableEq, Repr

/-- `WebAppState` from src/src/main.rs: the shared registry map
(`app_state.programs`) and the Command Gateway channels map. -/
structure WebAppState where
  programs : String → Option ProgramStatus
  channels : String → Option ChannelSender

/-- The HTTP responses the start handler can produce. -/
inductive HttpResponse
  | ok (body : String)
  | notFound (body : String)
  | badRequest (body : String)
deriving DecidableEq, Repr

/-- Result of running a handler: a response, or a Rust panic (`unwrap`). -/
inductive HandlerResult
  | resp (r : HttpResponse)
  | panicked
deriving DecidableEq, Repr

/-- `start_program` from src/src/handlers.rs lines 50-72: 404 when `name` is
not a key of the registry map `d.programs`; otherwise the sender is fetched
from `data.channels` with `unwrap()` (a panic when absent) and the send
decides between 200 and 400.  The second component lists the messages
enqueued. -/
def start_program (data : WebAppState) (name : String) :
    HandlerResult × List (String × CommandMsg) :=
  if (data.programs name).isNone then
    (.resp (.notFound s!"No program with name {name} found.\n"), [])
  else
    match data.channels name with
    | none => (.panicked, [])
    | some tx =>
      if tx.sendOk then
        (.resp (.ok s!"Program {name} has been instructed to start.\n"),
         [(name, .Start)])
      else
        (.resp (.badRequest s!"Error sending message to {name} channel\n"),
         [])

/-- The observables compared between the pure and the fused path: the step
outcome (including the resulting child handle) together with the ordered
registry writes and the messages enqueued on the own mailbox. -/
def observables (r : Outcome SupersChild × List Event) :
    Outcome SupersChild × List ProgramStatus × List CommandMsg :=
  (r.1, writes_of r.2, sends_of r.2)

/-- The messages the restart policy asks to enqueue after an observed exit:
one `Start` under `Always`, none under `Never`, and under `OnError` one
`Start` exactly when the exit status reports non-success. -/
def policy_sends (rp : RestartPolicy) (code : ExitStatus) : List CommandMsg :=
  match rp with
  | .Always => [.Start]
  | .Never => []
  | .OnError => if code.success then [] else [.Start]

/-- The `(derived_state, command?)` pairs (together with the environment
condition) on which the pure path and the fused path produce the same
observables: everything except `(Alive, Restart)`, `(Exited _, none)`,
`(Exited _, Start)`, `(Exited _, Restart)`, and `(NoChild, Start)` under a
failing spawn. -/
def agree_pair (status : ChildStatus) (msg : Option CommandMsg)
    (env : StepEnv) : Bool :=
  match status, msg with
  | .NoChild, some .Start => env.spawnResult.isSome
  | .NoChild, _ => true
  | .Alive, some .Restart => false
  | .Alive, _ => true
  | .Exited _, some .Stop => true
  | .Exited _, _ => false

/-- Sample program configurations for concrete evaluations. -/
def pAlways : ProgramConfig := ⟨"p", "/bin/sleep", ["3"], [], .Always⟩

/-- A sample configuration with restart policy `Never`. -/
def pNever : ProgramConfig := ⟨"q", "/bin/true", [], [], .Never⟩

/-- A sample configuration with restart policy `OnError`. -/
def pOnError : ProgramConfig := ⟨"r", "ls", [], [], .OnError⟩

/-- A sample present child handle. -/
def child0 : SupersChild := some ⟨0⟩

/-- Environment: child alive, all OS calls succeed. -/
def envAlive : StepEnv := ⟨.alive, some ⟨1⟩, true, true⟩

/-- Environment: child exited successfully, all OS calls succeed. -/
def envExitOk : StepEnv := ⟨.exited ⟨true⟩, some ⟨1⟩, true, true⟩

/-- Environment: child exited with failure, all OS calls succeed. -/
def envExitErr : StepEnv := ⟨.exited ⟨false⟩, some ⟨1⟩, true, true⟩

/-- Environment: spawn fails, everything else succeeds. -/
def envSpawnFail : StepEnv := ⟨.alive, none, true, true⟩

/-- Environment: kill fails on an alive child. -/
def envKillFail : StepEnv := ⟨.alive, some ⟨1⟩, false, true⟩

/-- Environment: the non-blocking poll itself fails. -/
def envPollErr : StepEnv := ⟨.pollErr, some ⟨1⟩, true, true⟩

/-- A web state whose Command Gateway knows program `a` while the registry
map has no entry yet (the situation right after startup, before the
supervisor's first status write). -/
def gatewayOnly : WebAppState where
  programs := fun _ => none
  channels := fun n => if n = "a" then some ⟨true⟩ else none

/-- C1, counterexample.  At derived state `Alive` with command `Restart`
(child `some ⟨0⟩`, environment `envAlive`), the production step
`run_state_machine` kills nothing, spawns nothing and writes no status — in
particular no `Running` write — contrary to the claim that the step kills the
current child, spawns a new one and sets status `Running`.  Its whole effect
is to enqueue `Stop` then `Start` on the own mailbox, keeping the child. -/
theorem c1_counterexample :
    get_child_status pAlways.name child0 envAlive.poll = .ok .Alive
    ∧ run_state_machine child0 (some .Restart) pAlways envAlive
        = (.ok child0, [.sentMsg .Stop, .sentMsg .Start])
    ∧ kills_of (run_state_machine child0 (some .Restart) pAlways envAlive).2 = []
    ∧ spawns_of (run_state_machine child0 (some .Restart) pAlways envAlive).2 = []
    ∧ writes_of (run_state_machine child0 (some .Restart) pAlways envAlive).2 = [] := by
  refine ⟨rfl, rfl, rfl, rfl, rfl⟩

/-- C1, amended: for every step whose derived state is `Alive` and whose
command is `Restart`, `run_state_machine` enqueues `Stop` then `Start` on the
supervisor's own mailbox and keeps the current child unchanged; no kill,
spawn, or status write happens in that step.  (The unused pure path
`state_machine_step` instead yields `[KillChild, SpawnChild]`, killing and
respawning without any status write.) -/
theorem c1_alive_restart_enqueues_stop_start (child : SupersChild) (c : Child)
    (p : ProgramConfig) (env : StepEnv) (hc : child = some c)
    (hp : env.poll = .alive) (hs : env.sendOk = true) :
    run_state_machine child (some .Restart) p env
      = (.ok child, [.sentMsg .Stop, .sentMsg .Start])
    ∧ state_machine_step .Alive (some .Restart) = [.KillChild, .SpawnChild] := by
  subst hc
  refine ⟨?_, rfl⟩
  simp [run_state_machine, get_child_status, hp, hs]

/-- C1, witness: the amended statement evaluated at the concrete input
`child0`, `pNever`, `envAlive`. -/
theorem c1_witness :
    run_state_machine child0 (some .Restart) pNever envAlive
      = (.ok child0, [.sentMsg .Stop, .sentMsg .Start])
    ∧ state_machine_step .Alive (some .Restart) = [.KillChild, .SpawnChild] :=
  c1_alive_restart_enqueues_stop_start child0 ⟨0⟩ pNever envAlive rfl rfl rfl

/-- C2, counterexample.  At derived state `Exited` with command `Stop`
(child `some ⟨0⟩`, environment `envExitOk`), `run_state_machine` keeps the
child handle and performs no registry write at all — contrary to the claim
that the step clears the handle and sets status `Stopped`. -/
theorem c2_counterexample :
    get_child_status pAlways.name child0 envExitOk.poll = .ok (.Exited ⟨true⟩)
    ∧ run_state_machine child0 (some .Stop) pAlways envExitOk = (.ok child0, [])
    ∧ (run_state_machine child0 (some .Stop) pAlways envExitOk).1
        ≠ .ok (none : SupersChild)
    ∧ writes_of (run_state_machine child0 (some .Stop) pAlways envExitOk).2 = [] := by
  refine ⟨rfl, rfl, by decide, rfl⟩

/-- C2, amended: for every step whose derived state is `Exited(_)` and whose
command is `Stop`, `run_state_machine` is a no-op: the `Stop` is ignored, the
child handle is kept, and no registry write or enqueue occurs. -/
theorem c2_exited_stop_is_noop (child : SupersChild) (c : Child)
    (code : ExitStatus) (p : ProgramConfig) (env : StepEnv)
    (hc : child = some c) (hp : env.poll = .exited code) :
    run_state_machine child (some .Stop) p env = (.ok child, []) := by
  subst hc
  simp [run_state_machine, get_child_status, hp]

/-- C2, witness: the amended statement evaluated at `child0`, `pNever`,
`envExitErr`. -/
theorem c2_witness :
    run_state_machine child0 (some .Stop) pNever envExitErr
      = (.ok child0, []) :=
  c2_exited_stop_is_noop child0 ⟨0⟩ ⟨false⟩ pNever envExitErr rfl rfl

/-- C3, counterexample.  At derived state `Exited` with no command and policy
`Always` (child `some ⟨0⟩`, environment `envExitOk`), the step enqueues the
self-directed `Start` while the returned child handle is still `some ⟨0⟩`:
the handle is never cleared in that step, contrary to the claim that it is
cleared before any self-enqueue. -/
theorem c3_counterexample :
    run_state_machine child0 none pAlways envExitOk
      = (.ok child0, [.wrote .Stopped, .sentMsg .Start])
    ∧ sends_of (run_state_machine child0 none pAlways envExitOk).2 = [.Start]
    ∧ (run_state_machine child0 none pAlways envExitOk).1
        ≠ .ok (none : SupersChild) := by
  refine ⟨rfl, rfl, by decide⟩

/-- C3, amended: on `(Exited(code), none)` the step writes status `Stopped`
as its first effect, before any self-directed enqueue, but it keeps the child
handle unchanged — the handle is only cleared by a later
`(Exited, Start/Restart)` step.  (A `Stop` queued behind the self-enqueued
`Start` therefore meets `(Exited, Stop)` or `(NoChild, Stop)`, both no-ops.) -/
theorem c3_exit_sets_stopped_first_keeps_handle (child : SupersChild)
    (c : Child) (code : ExitStatus) (p : ProgramConfig) (env : StepEnv)
    (hc : child = some c) (hp : env.poll = .exited code)
    (hs : env.sendOk = true) :
    run_state_machine child none p env
      = (.ok child,
         .wrote .Stopped :: List.map Event.sentMsg (policy_sends p.restartpolicy code)) := by
  subst hc
  rcases p with ⟨n, cmd, args, en, rp⟩
  rcases rp <;>
    simp [run_state_machine, get_child_status, hp, hs, policy_sends]
  rcases code with ⟨_ | _⟩ <;> simp

/-- C3, witness: the amended statement evaluated at `child0`, `pAlways`,
`envExitErr`. -/
theorem c3_witness :
    run_state_machine child0 none pAlways envExitErr
      = (.ok child0,
         .wrote .Stopped
           :: List.map Event.sentMsg (policy_sends pAlways.restartpolicy ⟨false⟩)) :=
  c3_exit_sets_stopped_first_keeps_handle child0 ⟨0⟩ ⟨false⟩ pAlways
    envExitErr rfl rfl rfl

/-- C4, confirmed: on `(Exited(code), none)` the step enqueues exactly the
messages `policy_sends` describes — one `Start` under `Always`, nothing under
`Never`, and under `OnError` one `Start` exactly when `code` reports
non-success — and spawns nothing; the pure interpreter `run_action` applied
to `ApplyPolicy code` enqueues exactly the same messages. -/
theorem c4_policy_application (child : SupersChild) (c : Child)
    (code : ExitStatus) (p : ProgramConfig) (env : StepEnv)
    (hc : child = some c) (hp : env.poll = .exited code)
    (hs : env.sendOk = true) :
    sends_of (run_state_machine child none p env).2
      = policy_sends p.restartpolicy code
    ∧ spawns_of (run_state_machine child none p env).2 = []
    ∧ run_action (.ApplyPolicy code) child p env
        = (.ok child, List.map Event.sentMsg (policy_sends p.restartpolicy code)) := by
  subst hc
  rcases p with ⟨n, cmd, args, en, rp⟩
  rcases code with ⟨_ | _⟩ <;> rcases rp <;>
    simp [run_state_machine, run_action, get_child_status, hp, hs,
      policy_sends, sends_of, spawns_of]

/-- C4, witness: the confirmed statement evaluated at `child0`, `pOnError`,
`envExitErr` (a failing exit under `OnError`: exactly one `Start`). -/
theorem c4_witness :
    sends_of (run_state_machine child0 none pOnError envExitErr).2
      = policy_sends pOnError.restartpolicy ⟨false⟩
    ∧ spawns_of (run_state_machine child0 none pOnError envExitErr).2 = []
    ∧ run_action (.ApplyPolicy ⟨false⟩) child0 pOnError envExitErr
        = (.ok child0,
           List.map Event.sentMsg (policy_sends pOnError.restartpolicy ⟨false⟩)) :=
  c4_policy_application child0 ⟨0⟩ ⟨false⟩ pOnError envExitErr rfl rfl rfl

/-- C5, counterexample.  In `gatewayOnly` program `a` is present in the
Command Gateway channels map but absent from the registry map, and
`start_program` answers 404 and enqueues nothing — contrary to the claim that
404 happens exactly when the name is absent from the Command Gateway map. -/
theorem c5_counterexample :
    gatewayOnly.channels "a" = some ⟨true⟩
    ∧ (start_program gatewayOnly "a").1
        = .resp (.notFound "No program with name a found.\n")
    ∧ (start_program gatewayOnly "a").2 = [] := by
  refine ⟨by decide, by decide, by decide⟩

/-- C5, amended: `POST /programs/{name}/start` answers 404 exactly when the
name is absent from the Status Registry's `programs` map; when present there,
the handler fetches the sender from the Command Gateway with `unwrap`
(panicking if it is absent) and answers 200 with one `Start` enqueued when the
mailbox send succeeds, 400 with nothing enqueued when it fails. -/
theorem c5_start_handler_behaviour (data : WebAppState) (name : String) :
    (data.programs name = none →
      start_program data name
        = (.resp (.notFound s!"No program with name {name} found.\n"), []))
    ∧ (∀ s : ProgramStatus, data.programs name = some s →
        (data.channels name = none →
          start_program data name = (.panicked, []))
        ∧ ∀ tx : ChannelSender, data.channels name = some tx →
            (tx.sendOk = true →
              start_program data name
                = (.resp (.ok s!"Program {name} has been instructed to start.\n"),
                   [(name, .Start)]))
            ∧ (tx.sendOk = false →
              start_program data name
                = (.resp
                    (.badRequest s!"Error sending message to {name} channel\n"),
                   []))) := by
  constructor
  · intro h
    simp [start_program, h]
  · intro s hs
    refine ⟨fun h => by simp [start_program, hs, h], fun tx htx => ?_⟩
    constructor
    · intro hok
      simp [start_program, hs, htx, hok]
    · intro hbad
      simp [start_program, hs, htx, hbad]

/-- C5, witness: the amended statement evaluated on a state whose registry
and gateway both know program `a`, with a healthy mailbox. -/
theorem c5_witness :
    start_program
        ⟨fun n => if n = "a" then some .Running else none,
         fun n => if n = "a" then some ⟨true⟩ else none⟩ "a"
      = (.resp (.ok "Program a has been instructed to start.\n"),
         [("a", .Start)]) := by
  have h :=
    ((c5_start_handler_behaviour
        ⟨fun n => if n = "a" then some .Running else none,
         fun n => if n = "a" then some ⟨true⟩ else none⟩ "a").2
      .Running (by decide)).2 ⟨true⟩ (by decide)
  exact h.1 rfl

/-- C6, counterexample.  With a failing kill (`envKillFail`) the worker run
over two queued iterations terminates at the first with
`ProgramProcessKillError` — the second iteration never runs — contrary to the
claim that the supervisor continues after a kill failure. -/
theorem c6_counterexample :
    pgm_thread_run [(some .Stop, envKillFail), (none, envAlive)] child0 pAlways
      = (.err (.ProgramProcessKillError "p"), []) := by
  decide

/-- C6, amended: a failed kill on an alive child is not merely logged: the
`(Alive, Stop)` step propagates `ProgramProcessKillError` (tagged with the
program name) through `?`, and the worker loop `pgm_thread` terminates with
that error, running none of the remaining iterations. -/
theorem c6_kill_failure_terminates_worker
    (rest : List (Option CommandMsg × StepEnv)) (child : SupersChild)
    (c : Child) (p : ProgramConfig) (env : StepEnv) (hc : child = some c)
    (hp : env.poll = .alive) (hk : env.killOk = false) :
    pgm_thread_run ((some .Stop, env) :: rest) child p
      = (.err (.ProgramProcessKillError p.name), []) := by
  subst hc
  simp [pgm_thread_run, run_state_machine, get_child_status, hp, hk]

/-- C6, witness: the amended statement evaluated at `child0`, `pNever`,
`envKillFail`, with one further queued iteration that never runs. -/
theorem c6_witness :
    pgm_thread_run [(some .Stop, envKillFail), (none, envAlive)] child0 pNever
      = (.err (.ProgramProcessKillError "q"), []) :=
  c6_kill_failure_terminates_worker [(none, envAlive)] child0 ⟨0⟩ pNever
    envKillFail rfl rfl rfl

/-- C7, confirmed: a failing spawn on `(NoChild, Start)` terminates the
worker loop with `ProgramProcessSpawnError` tagged with the program name, and
a failing non-blocking poll terminates it with
`ProgramCheckProcessStatusError` tagged with the program name, whatever
command was pending; in both cases no later iteration runs. -/
theorem c7_spawn_and_poll_failures_fatal
    (rest : List (Option CommandMsg × StepEnv)) (p : ProgramConfig)
    (env env2 : StepEnv) (c : Child) (msg : Option CommandMsg)
    (hs : env.spawnResult = none) (hp : env2.poll = .pollErr) :
    pgm_thread_run ((some .Start, env) :: rest) none p
      = (.err (.ProgramProcessSpawnError p.name), [.wrote .Running])
    ∧ pgm_thread_run ((msg, env2) :: rest) (some c) p
      = (.err (.ProgramCheckProcessStatusError p.name), []) := by
  constructor
  · simp [pgm_thread_run, run_state_machine, get_child_status, hs]
  · simp [pgm_thread_run, run_state_machine, get_child_status, hp]

/-- C7, witness: the confirmed statement evaluated at `pAlways` with the
failing-spawn and failing-poll environments. -/
theorem c7_witness :
    pgm_thread_run [(some .Start, envSpawnFail)] none pAlways
      = (.err (.ProgramProcessSpawnError "p"), [.wrote .Running])
    ∧ pgm_thread_run [(none, envPollErr)] (some ⟨0⟩) pAlways
      = (.err (.ProgramCheckProcessStatusError "p"), []) :=
  c7_spawn_and_poll_failures_fatal [] pAlways envSpawnFail envPollErr ⟨0⟩
    none rfl rfl

/-- C8, counterexample.  At the derivable pair `(Alive, Restart)` (child
`some ⟨0⟩`, environment `envAlive`) the observables of the pure path
`run_actions ∘ state_machine_step` differ from those of the fused
`run_state_machine`: the pure path kills and spawns (resulting child
`some ⟨1⟩`, no messages), the fused path keeps `some ⟨0⟩` and enqueues
`Stop, Start`. -/
theorem c8_counterexample :
    get_child_status pAlways.name child0 envAlive.poll = .ok .Alive
    ∧ observables
        (run_actions (state_machine_step .Alive (some .Restart)) child0
          pAlways envAlive)
      ≠ observables (run_state_machine child0 (some .Restart) pAlways envAlive) := by
  refine ⟨rfl, by decide⟩

/-- C8, amended: the pure path `run_actions ∘ state_machine_step` and the
fused `run_state_machine` produce the same observables (outcome with
resulting child handle, registry writes, enqueued messages) exactly on the
pairs selected by `agree_pair`: all of `(NoChild, _)` — with a succeeding
spawn for `(NoChild, Start)` — `(Alive, none/Start/Stop)` and
`(Exited _, Stop)`.  They differ on `(Alive, Restart)`, `(Exited _, none)`,
`(Exited _, Start/Restart)`, and `(NoChild, Start)` under a failing spawn
(where only the fused path has already written `Running`). -/
theorem c8_pure_vs_fused_agreement (child : SupersChild)
    (status : ChildStatus) (msg : Option CommandMsg) (p : ProgramConfig)
    (env : StepEnv)
    (h : get_child_status p.name child env.poll = .ok status)
    (ha : agree_pair status msg env = true) :
    observables (run_actions (state_machine_step status msg) child p env)
      = observables (run_state_machine child msg p env) := by
  rcases env with ⟨poll, spawnR, killOk, sendOk⟩
  rcases child with _ | c
  · simp [get_child_status] at h
    subst h
    rcases msg with _ | m
    · simp [state_machine_step, run_actions, run_state_machine,
        get_child_status, observables]
    rcases m
    · rcases spawnR with _ | c2
      · simp [agree_pair] at ha
      · simp [state_machine_step, run_actions, run_action, run_state_machine,
          get_child_status, observables, writes_of, sends_of]
    · simp [state_machine_step, run_actions, run_state_machine,
        get_child_status, observables]
    · simp [state_machine_step, run_actions, run_state_machine,
        get_child_status, observables]
  · rcases poll with _ | _ | code
    · simp [get_child_status] at h
    · simp [get_child_status] at h
      subst h
      rcases msg with _ | m
      · simp [state_machine_step, run_actions, run_state_machine,
          get_child_status, observables]
      rcases m
      · simp [state_machine_step, run_actions, run_state_machine,
          get_child_status, observables]
      · rcases killOk with _ | _ <;>
          simp [state_machine_step, run_actions, run_action,
            run_state_machine, get_child_status, observables, writes_of,
            sends_of]
      · simp [agree_pair] at ha
    · simp [get_child_status] at h
      subst h
      rcases msg with _ | m
      · simp [agree_pair] at ha
      rcases m
      · simp [agree_pair] at ha
      · simp [state_machine_step, run_actions, run_state_machine,
          get_child_status, observables]
      · simp [agree_pair] at ha

/-- C8, witness: the amended statement evaluated at the derivable pair
`(Alive, Stop)` with child `some ⟨0⟩`, `pAlways`, `envAlive`. -/
theorem c8_witness :
    observables
        (run_actions (state_machine_step .Alive (some .Stop)) child0 pAlways
          envAlive)
      = observables (run_state_machine child0 (some .Stop) pAlways envAlive) :=
  c8_pure_vs_fused_agreement child0 .Alive (some .Stop) pAlways envAlive
    rfl rfl

/-- C9, confirmed: on `(NoChild, Start)` the fused step writes `Running` to
the registry before attempting the spawn, so when the spawn fails the step
returns `ProgramProcessSpawnError` (terminating the worker, see C7) with the
registry entry left at `Running` and no child spawned; when the spawn
succeeds the trace is the write followed by the spawn. -/
theorem c9_running_written_before_spawn (p : ProgramConfig) (env : StepEnv)
    (init : Option ProgramStatus) :
    (env.spawnResult = none →
      run_state_machine none (some .Start) p env
        = (.err (.ProgramProcessSpawnError p.name), [.wrote .Running])
      ∧ apply_writes init
          (run_state_machine none (some .Start) p env).2 = some .Running)
    ∧ ∀ c : Child, env.spawnResult = some c →
        run_state_machine none (some .Start) p env
          = (.ok (some c), [.wrote .Running, .spawned c]) := by
  constructor
  · intro hs
    constructor
    · simp [run_state_machine, get_child_status, hs]
    · simp [run_state_machine, get_child_status, hs, apply_writes, writes_of]
  · intro c hs
    simp [run_state_machine, get_child_status, hs]

/-- C9, witness: the confirmed statement evaluated at `pAlways`,
`envSpawnFail`, initial registry entry absent. -/
theorem c9_witness :
    run_state_machine none (some .Start) pAlways envSpawnFail
      = (.err (.ProgramProcessSpawnError "p"), [.wrote .Running])
    ∧ apply_writes none
        (run_state_machine none (some .Start) pAlways envSpawnFail).2
      = some .Running :=
  (c9_running_written_before_spawn pAlways envSpawnFail none).1 rfl

/-- C10, confirmed: executing `KillChild` with an absent handle is the
`unreachable!` panic of `run_action`; but `state_machine_step` emits
`KillChild` only when the derived state is `Alive`, and whenever the derived
state is consistent with the actual handle (as computed by
`get_child_status`), executing the full action list never reaches the panic
branch. -/
theorem c10_killchild_panic_unreachable (child : SupersChild)
    (p : ProgramConfig) (env : StepEnv) (status : ChildStatus)
    (msg : Option CommandMsg)
    (h : get_child_status p.name child env.poll = .ok status) :
    run_action .KillChild none p env = (.panicked, [])
    ∧ (Action.KillChild ∈ state_machine_step status msg → status = .Alive)
    ∧ (run_actions (state_machine_step status msg) child p env).1
        ≠ Outcome.panicked := by
  refine ⟨rfl, ?_, ?_⟩
  · rcases status with _ | _ | code <;> rcases msg with _ | (_ | _ | _) <;>
      simp [state_machine_step]
  · rcases env with ⟨poll, spawnR, killOk, sendOk⟩
    rcases child with _ | c
    · simp [get_child_status] at h
      subst h
      rcases msg with _ | (_ | _ | _) <;> rcases spawnR with _ | c2 <;>
        simp [state_machine_step, run_actions, run_action]
    · rcases poll with _ | _ | code
      · simp [get_child_status] at h
      · simp [get_child_status] at h
        subst h
        rcases msg with _ | (_ | _ | _) <;> rcases spawnR with _ | c2 <;>
          rcases killOk with _ | _ <;>
            simp [state_machine_step, run_actions, run_action]
      · simp [get_child_status] at h
        subst h
        rcases p with ⟨n, cm, ar, en, rp⟩
        rcases code with ⟨s⟩
        rcases msg with _ | (_ | _ | _) <;> rcases spawnR with _ | c2 <;>
          rcases rp <;> rcases s with _ | _ <;> rcases sendOk with _ | _ <;>
            simp [state_machine_step, run_actions, run_action]

/-- C10, witness: the confirmed statement evaluated at child `some ⟨0⟩`,
derived state `Alive`, command `Stop`, `pAlways`, `envAlive`. -/
theorem c10_witness :
    run_action .KillChild none pAlways envAlive = (.panicked, [])
    ∧ (Action.KillChild ∈ state_machine_step .Alive (some .Stop)
        → ChildStatus.Alive = .Alive)
    ∧ (run_actions (state_machine_step .Alive (some .Stop)) child0 pAlways
        envAlive).1 ≠ Outcome.panicked :=
  c10_killchild_panic_unreachable child0 pAlways envAlive .Alive (some .Stop)
    rfl

end Supers
